import Mathlib

/-!
Verification of the UEFI base environment module (`src/base.rs`).

The module under verification declares ABI types for UEFI: the `Guid`
structure with its two constructors (`from_native`, `from_spec`) and the raw
byte view (`as_bytes`), the one-byte `Boolean` enum, the architecture
conditional calling-convention selection (`eficall_arch!`), and the
compile-time rejection of unsupported targets.

Modelling notes:

* Machine integers are `Nat` with explicit bounds (`< 2^32`, `< 2^16`,
  `< 256`) where a claim needs them; byte extraction is `/` and `% 256`.
* The crate rejects every non-little-endian target with `compile_error!`,
  so the only targets on which the `Guid` code compiles are little-endian.
  On such a target `uN::to_be` equals `uN::swap_bytes`, and the in-memory
  byte order of an integer field is least-significant byte first.  The
  `as_bytes` transmute is therefore modelled as serializing each stored
  field least-significant byte first, in declared field order.
* `[u8; 6]` is modelled as a `List Nat` whose well-formedness (length 6,
  bytes below 256) appears as a hypothesis where a claim needs it.
* Conditional compilation (`#[cfg(target_arch = "...")]`,
  `#[cfg(target_endian = "...")]`) is modelled as a pure function of the
  target-configuration strings, which is exactly how `cfg` resolution
  works: the choice depends only on the build configuration, never on a
  runtime value.
-/

/-- Little-endian memory bytes of a stored 32-bit field, least significant
byte first: this is the in-memory representation of a `u32` on the
little-endian targets this crate compiles for. -/
def leBytes32 (x : Nat) : List Nat :=
  [x % 256, x / 256 % 256, x / 65536 % 256, x / 16777216 % 256]

/-- Little-endian memory bytes of a stored 16-bit field. -/
def leBytes16 (x : Nat) : List Nat :=
  [x % 256, x / 256 % 256]

/-- `u32::swap_bytes`: reverses the byte order of a 32-bit value. -/
def swapBytes32 (x : Nat) : Nat :=
  x % 256 * 16777216 + x / 256 % 256 * 65536 + x / 65536 % 256 * 256 + x / 16777216 % 256

/-- `u16::swap_bytes`: reverses the byte order of a 16-bit value. -/
def swapBytes16 (x : Nat) : Nat :=
  x % 256 * 256 + x / 256 % 256

/-- `u8::swap_bytes`: the identity on a single byte. -/
def swapBytes8 (x : Nat) : Nat := x

/-- `u32::to_be` on a little-endian target (the only targets the crate
compiles for, see the `compile_error!` checks): a byte swap. -/
def toBe32 (x : Nat) : Nat := swapBytes32 x

/-- `u16::to_be` on a little-endian target: a byte swap. -/
def toBe16 (x : Nat) : Nat := swapBytes16 x

/-- `u8::to_be`: the identity. -/
def toBe8 (x : Nat) : Nat := x

/-- The `Guid` structure of `src/base.rs` (`#[repr(C, align(8))]`), fields
in declared order.  Each field holds the stored (post-`to_be`) value. -/
structure Guid where
  time_low : Nat
  time_mid : Nat
  time_hi_and_version : Nat
  clk_seq_hi_res : Nat
  clk_seq_low : Nat
  node : List Nat
deriving DecidableEq

/-- `Guid::from_native`: stores each scalar field converted with `to_be`,
copies `node` unchanged. -/
def Guid.from_native (time_low time_mid time_hi_and_version clk_seq_hi_res clk_seq_low : Nat)
    (node : List Nat) : Guid :=
  { time_low := toBe32 time_low
    time_mid := toBe16 time_mid
    time_hi_and_version := toBe16 time_hi_and_version
    clk_seq_hi_res := toBe8 clk_seq_hi_res
    clk_seq_low := toBe8 clk_seq_low
    node := node }

/-- `Guid::from_spec`: byte-swaps each scalar field, then delegates to
`Guid::from_native`. -/
def Guid.from_spec (time_low time_mid time_hi_and_version clk_seq_hi_res clk_seq_low : Nat)
    (node : List Nat) : Guid :=
  Guid.from_native
    (swapBytes32 time_low)
    (swapBytes16 time_mid)
    (swapBytes16 time_hi_and_version)
    (swapBytes8 clk_seq_hi_res)
    (swapBytes8 clk_seq_low)
    node

/-- `Guid::as_bytes`: the transmute of the 16-byte structure to `[u8; 16]`.
On the little-endian targets the crate compiles for, this reads each stored
integer field least-significant byte first, in declared field order, then
the `node` bytes unchanged. -/
def Guid.as_bytes (g : Guid) : List Nat :=
  leBytes32 g.time_low ++ leBytes16 g.time_mid ++ leBytes16 g.time_hi_and_version ++
    [g.clk_seq_hi_res % 256, g.clk_seq_low % 256] ++ g.node.map (fun b => b % 256)

/-- Reinterpreting 16 raw bytes back into the `Guid` field layout (the
inverse direction of the `as_bytes` transmute, as described by the spec's
round-trip property): read each integer field least-significant byte first
at its layout offset.  Byte lists of other lengths do not arise. -/
def Guid.from_bytes : List Nat → Guid
  | [b0, b1, b2, b3, b4, b5, b6, b7, b8, b9, b10, b11, b12, b13, b14, b15] =>
    { time_low := b0 + b1 * 256 + b2 * 65536 + b3 * 16777216
      time_mid := b4 + b5 * 256
      time_hi_and_version := b6 + b7 * 256
      clk_seq_hi_res := b8
      clk_seq_low := b9
      node := [b10, b11, b12, b13, b14, b15] }
  | _ =>
    { time_low := 0, time_mid := 0, time_hi_and_version := 0
      clk_seq_hi_res := 0, clk_seq_low := 0, node := [0, 0, 0, 0, 0, 0] }

/-- Well-formedness of a stored `Guid`: each field within its Rust type's
range (`u32`, `u16`, `u8`, `[u8; 6]`). -/
def Guid.wf (g : Guid) : Prop :=
  g.time_low < 4294967296 ∧ g.time_mid < 65536 ∧ g.time_hi_and_version < 65536 ∧
    g.clk_seq_hi_res < 256 ∧ g.clk_seq_low < 256 ∧
    g.node.length = 6 ∧ ∀ b ∈ g.node, b < 256

instance (g : Guid) : Decidable (Guid.wf g) := by
  unfold Guid.wf; infer_instance

/-- Big-endian byte sequence of a 32-bit value, as the spec words it: most
significant byte first. -/
def beBytes32 (x : Nat) : List Nat :=
  [x / 16777216 % 256, x / 65536 % 256, x / 256 % 256, x % 256]

/-- Big-endian byte sequence of a 16-bit value. -/
def beBytes16 (x : Nat) : List Nat :=
  [x / 256 % 256, x % 256]

/-- The calling conventions the `eficall_arch!` macro expansions name:
`extern "aapcs"`, `extern "C"`, `extern "cdecl"`, `extern "win64"`. -/
inductive CallConv where
  | aapcs
  | c
  | cdecl
  | win64
deriving DecidableEq

/-- The `#[cfg(target_arch = "...")]` selection of the `eficall_arch!`
macro body: which `extern` ABI string the macro expands to, as a function
of the build configuration's `target_arch`.  The final arm is the
fallback definition guarded by `#[cfg(not(any(...)))]`. -/
def eficall_arch (target_arch : String) : CallConv :=
  if target_arch = "arm" then CallConv.aapcs
  else if target_arch = "aarch64" then CallConv.c
  else if target_arch = "x86" then CallConv.cdecl
  else if target_arch = "x86_64" then CallConv.win64
  else CallConv.c

/-- The architecture membership test of the two `#[cfg(not(any(...)))]`
guards: the supported set of `target_arch` values. -/
def archSupported (target_arch : String) : Bool :=
  target_arch = "arm" || target_arch = "aarch64" ||
    target_arch = "x86" || target_arch = "x86_64"

/-- The `compile_error!` diagnostics emitted for a given build
configuration, per the two `#[cfg(not(...))] compile_error!(...)` items at
the top of `src/base.rs`.  A non-empty list means the build fails at
compile time with these diagnostics. -/
def compileErrors (target_arch target_endian : String) : List String :=
  (if archSupported target_arch then [] else ["The target architecture is not supported."]) ++
    (if target_endian = "little" then [] else ["The target endianness is not supported."])

/-- The `Boolean` enum of `src/base.rs`: `#[repr(u8)]` with exactly the two
tags `False = 0u8` and `True = 1u8`. -/
inductive Boolean where
  | False
  | True
deriving DecidableEq

/-- The `#[repr(u8)]` discriminant of a `Boolean` value: its one stored
byte. -/
def Boolean.toU8 : Boolean → Nat
  | Boolean.False => 0
  | Boolean.True => 1

/-- Size and alignment of each `Guid` field in declared order:
`u32`, `u16`, `u16`, `u8`, `u8`, `[u8; 6]`. -/
def guidFields : List (Nat × Nat) :=
  [(4, 4), (2, 2), (2, 2), (1, 1), (1, 1), (6, 1)]

/-- Round `off` up to the next multiple of the alignment `a`. -/
def alignUp (off a : Nat) : Nat := (off + a - 1) / a * a

/-- The C struct layout rule (`#[repr(C)]`): place each field at the
current offset rounded up to the field's alignment, in declared order.
Returns the field offsets and the offset past the last field. -/
def layoutFields : List (Nat × Nat) → Nat → List Nat × Nat
  | [], off => ([], off)
  | (s, a) :: rest, off =>
    let o := alignUp off a
    let (os, e) := layoutFields rest (o + s)
    (o :: os, e)

/-- Alignment of the `Guid` struct: the `align(8)` attribute raised to at
least every field's alignment. -/
def guidAlign : Nat :=
  max 8 ((guidFields.map Prod.snd).foldr max 1)

/-- Byte offset of each `Guid` field under `#[repr(C)]`. -/
def guidOffsets : List Nat := (layoutFields guidFields 0).1

/-- Size of the `Guid` struct: the offset past the last field rounded up
to the struct alignment. -/
def guidSize : Nat := alignUp (layoutFields guidFields 0).2 guidAlign

lemma map_mod256_eq (l : List Nat) (h : ∀ b ∈ l, b < 256) :
    l.map (fun b => b % 256) = l := by
  induction l with
  | nil => rfl
  | cons a t ih =>
    simp only [List.map_cons, List.cons.injEq]
    refine ⟨Nat.mod_eq_of_lt (h a (by simp)), ih fun b hb => h b (by simp [hb])⟩

lemma leBytes32_of_bytes (a b c d : Nat) (ha : a < 256) (hb : b < 256) (hc : c < 256)
    (hd : d < 256) : leBytes32 (a * 16777216 + b * 65536 + c * 256 + d) = [d, c, b, a] := by
  unfold leBytes32
  simp only [List.cons.injEq, and_true]
  omega

lemma leBytes16_of_bytes (a b : Nat) (ha : a < 256) (hb : b < 256) :
    leBytes16 (a * 256 + b) = [b, a] := by
  unfold leBytes16
  simp only [List.cons.injEq, and_true]
  omega

lemma swapBytes32_le (x : Nat) :
    leBytes32 (swapBytes32 x) = [x / 16777216 % 256, x / 65536 % 256, x / 256 % 256, x % 256] := by
  unfold swapBytes32
  exact leBytes32_of_bytes _ _ _ _ (by omega) (by omega) (by omega) (by omega)

lemma swapBytes16_le (x : Nat) :
    leBytes16 (swapBytes16 x) = [x / 256 % 256, x % 256] := by
  unfold swapBytes16
  exact leBytes16_of_bytes _ _ (by omega) (by omega)

lemma list_length_six (l : List Nat) (h : l.length = 6) :
    ∃ a b c d e f, l = [a, b, c, d, e, f] := by
  rcases l with _ | ⟨a, l⟩
  · simp only [List.length_nil] at h; omega
  rcases l with _ | ⟨b, l⟩
  · simp only [List.length_cons, List.length_nil] at h; omega
  rcases l with _ | ⟨c, l⟩
  · simp only [List.length_cons, List.length_nil] at h; omega
  rcases l with _ | ⟨d, l⟩
  · simp only [List.length_cons, List.length_nil] at h; omega
  rcases l with _ | ⟨e, l⟩
  · simp only [List.length_cons, List.length_nil] at h; omega
  rcases l with _ | ⟨f, l⟩
  · simp only [List.length_cons, List.length_nil] at h; omega
  rcases l with _ | ⟨g, l⟩
  · exact ⟨a, b, c, d, e, f, rfl⟩
  · simp only [List.length_cons, List.length_nil] at h
    omega

lemma from_bytes_as_bytes (g : Guid) (h : Guid.wf g) : Guid.from_bytes g.as_bytes = g := by
  obtain ⟨tl, tm, th, ch, cl, node⟩ := g
  obtain ⟨h1, h2, h3, h4, h5, h6, h7⟩ := h
  obtain ⟨n0, n1, n2, n3, n4, n5, rfl⟩ := list_length_six node h6
  dsimp only at h1 h2 h3 h4 h5 h7
  simp only [List.mem_cons, List.not_mem_nil, or_false, forall_eq_or_imp, forall_eq] at h7
  obtain ⟨e0, e1, e2, e3, e4, e5⟩ := h7
  simp only [Guid.as_bytes, leBytes32, leBytes16, List.map_cons, List.map_nil,
    List.cons_append, List.nil_append, Guid.from_bytes, Guid.mk.injEq, List.cons.injEq,
    and_true]
  omega

/-- C1: `from_native` followed by `as_bytes` yields the 16 bytes
`time_low` big-endian, `time_mid` big-endian, `time_hi_and_version`
big-endian, `clk_seq_hi_res`, `clk_seq_low`, then `node` unchanged. -/
theorem from_native_as_bytes_layout (tl tm th ch cl : Nat) (node : List Nat)
    (h1 : tl < 4294967296) (h2 : tm < 65536) (h3 : th < 65536)
    (h4 : ch < 256) (h5 : cl < 256)
    (h6 : node.length = 6) (h7 : ∀ b ∈ node, b < 256) :
    (Guid.from_native tl tm th ch cl node).as_bytes =
      beBytes32 tl ++ beBytes16 tm ++ beBytes16 th ++ [ch, cl] ++ node := by
  simp only [Guid.as_bytes, Guid.from_native, toBe32, toBe16, toBe8,
    swapBytes32_le, swapBytes16_le, map_mod256_eq node h7,
    Nat.mod_eq_of_lt h4, Nat.mod_eq_of_lt h5, beBytes32, beBytes16]

theorem from_native_as_bytes_layout_witness :
    (Guid.from_native 1 2 3 4 5 [6, 7, 8, 9, 10, 11]).as_bytes =
      beBytes32 1 ++ beBytes16 2 ++ beBytes16 3 ++ [4, 5] ++ [6, 7, 8, 9, 10, 11] :=
  from_native_as_bytes_layout 1 2 3 4 5 [6, 7, 8, 9, 10, 11]
    (by decide) (by decide) (by decide) (by decide) (by decide) (by decide) (by decide)

/-- C2: `from_spec` produces exactly the `Guid` (hence exactly the stored
bytes) that `from_native` produces on the byte-swapped scalar fields, with
`node` unchanged. -/
theorem from_spec_delegates (tl tm th ch cl : Nat) (node : List Nat) :
    Guid.from_spec tl tm th ch cl node =
        Guid.from_native (swapBytes32 tl) (swapBytes16 tm) (swapBytes16 th)
          (swapBytes8 ch) (swapBytes8 cl) node ∧
      (Guid.from_spec tl tm th ch cl node).as_bytes =
        (Guid.from_native (swapBytes32 tl) (swapBytes16 tm) (swapBytes16 th)
          (swapBytes8 ch) (swapBytes8 cl) node).as_bytes :=
  ⟨rfl, rfl⟩

/-- C3: reinterpreting the 16 raw bytes of a `Guid` back into the field
layout and serializing again reproduces the identical byte sequence. -/
theorem as_bytes_roundtrip (g : Guid) (h : g.node.length = 6) :
    (Guid.from_bytes g.as_bytes).as_bytes = g.as_bytes := by
  obtain ⟨tl, tm, th, ch, cl, node⟩ := g
  obtain ⟨n0, n1, n2, n3, n4, n5, rfl⟩ := list_length_six node h
  simp only [Guid.as_bytes, leBytes32, leBytes16, List.map_cons, List.map_nil,
    List.cons_append, List.nil_append, Guid.from_bytes, List.cons.injEq, and_true]
  omega

theorem as_bytes_roundtrip_witness :
    (Guid.from_bytes (Guid.mk 1 2 3 4 5 [6, 7, 8, 9, 10, 11]).as_bytes).as_bytes =
      (Guid.mk 1 2 3 4 5 [6, 7, 8, 9, 10, 11]).as_bytes :=
  as_bytes_roundtrip (Guid.mk 1 2 3 4 5 [6, 7, 8, 9, 10, 11]) (by decide)

/-- C4 counterexample: at the spec's concrete inputs, `from_native`
followed by `as_bytes` does NOT yield the claimed bytes
`04 03 02 01 06 05 08 07 09 0A 0B 0C 0D 0E 0F 10`. -/
theorem from_native_concrete_not_claimed :
    (Guid.from_native 0x01020304 0x0506 0x0708 0x09 0x0A
        [0x0B, 0x0C, 0x0D, 0x0E, 0x0F, 0x10]).as_bytes ≠
      [0x04, 0x03, 0x02, 0x01, 0x06, 0x05, 0x08, 0x07,
        0x09, 0x0A, 0x0B, 0x0C, 0x0D, 0x0E, 0x0F, 0x10] := by
  decide

/-- C4 amended: at those inputs, `from_native` followed by `as_bytes`
yields the big-endian bytes `01 02 03 04 05 06 07 08 09 0A 0B 0C 0D 0E
0F 10`. -/
theorem from_native_concrete :
    (Guid.from_native 0x01020304 0x0506 0x0708 0x09 0x0A
        [0x0B, 0x0C, 0x0D, 0x0E, 0x0F, 0x10]).as_bytes =
      [0x01, 0x02, 0x03, 0x04, 0x05, 0x06, 0x07, 0x08,
        0x09, 0x0A, 0x0B, 0x0C, 0x0D, 0x0E, 0x0F, 0x10] := by
  decide

/-- C5 counterexample: at the spec's concrete inputs, `from_spec`
followed by `as_bytes` does NOT yield the claimed bytes
`01 02 03 04 05 06 07 08 09 0A 0B 0C 0D 0E 0F 10`. -/
theorem from_spec_concrete_not_claimed :
    (Guid.from_spec 0x01020304 0x0506 0x0708 0x09 0x0A
        [0x0B, 0x0C, 0x0D, 0x0E, 0x0F, 0x10]).as_bytes ≠
      [0x01, 0x02, 0x03, 0x04, 0x05, 0x06, 0x07, 0x08,
        0x09, 0x0A, 0x0B, 0x0C, 0x0D, 0x0E, 0x0F, 0x10] := by
  decide

/-- C5 amended: at those inputs, `from_spec` followed by `as_bytes` yields
`04 03 02 01 06 05 08 07 09 0A 0B 0C 0D 0E 0F 10`: the pre-swap cancels
the big-endian store, so each scalar field is stored at its native value
and appears in the view in little-endian (literal-reversed) order. -/
theorem from_spec_concrete :
    (Guid.from_spec 0x01020304 0x0506 0x0708 0x09 0x0A
        [0x0B, 0x0C, 0x0D, 0x0E, 0x0F, 0x10]).as_bytes =
      [0x04, 0x03, 0x02, 0x01, 0x06, 0x05, 0x08, 0x07,
        0x09, 0x0A, 0x0B, 0x0C, 0x0D, 0x0E, 0x0F, 0x10] := by
  decide

/-- C6: under the C layout rule with the `align(8)` attribute, `Guid` is
16 bytes, its alignment is a multiple of 8, the fields sit at offsets
0, 4, 6, 8, 9, 10 in declared order, and the field sizes sum to the
struct size, so there is no padding. -/
theorem guid_layout :
    guidSize = 16 ∧ guidAlign % 8 = 0 ∧ guidOffsets = [0, 4, 6, 8, 9, 10] ∧
      (guidFields.map Prod.fst).sum = guidSize := by
  decide

/-- C7: `Boolean` stores one byte; it has exactly the two values `False`
and `True`, encoded as 0 and 1, and a byte is the encoding of some
`Boolean` exactly when it is 0 or 1. -/
theorem boolean_repr :
    (∀ b : Boolean, Boolean.toU8 b < 256) ∧
      Boolean.toU8 Boolean.False = 0 ∧ Boolean.toU8 Boolean.True = 1 ∧
      (∀ b : Boolean, b = Boolean.False ∨ b = Boolean.True) ∧
      (∀ n : Nat, (∃ b : Boolean, Boolean.toU8 b = n) ↔ n = 0 ∨ n = 1) := by
  refine ⟨fun b => by cases b <;> decide, rfl, rfl, fun b => by cases b <;> simp, fun n => ?_⟩
  constructor
  · rintro ⟨b, hb⟩
    cases b
    · exact Or.inl hb.symm
    · exact Or.inr hb.symm
  · rintro (h | h)
    · exact ⟨Boolean.False, h.symm⟩
    · exact ⟨Boolean.True, h.symm⟩

/-- C8: the build-configuration-time calling-convention selection maps
32-bit ARM to `aapcs`, 64-bit ARM to the default C convention, 32-bit x86
to `cdecl`, and 64-bit x86 to `win64`; it is a pure function of the
target-architecture configuration string, with no runtime input. -/
theorem eficall_arch_table :
    eficall_arch "arm" = CallConv.aapcs ∧
      eficall_arch "aarch64" = CallConv.c ∧
      eficall_arch "x86" = CallConv.cdecl ∧
      eficall_arch "x86_64" = CallConv.win64 := by
  refine ⟨rfl, rfl, rfl, rfl⟩

/-- C9: a build configuration emits a `compile_error!` diagnostic exactly
when the target architecture is outside {arm, aarch64, x86, x86_64} or
the target is not little-endian; the rejection is a function of the build
configuration alone. -/
theorem unsupported_target_fails (target_arch target_endian : String) :
    compileErrors target_arch target_endian ≠ [] ↔
      archSupported target_arch = false ∨ target_endian ≠ "little" := by
  by_cases h1 : archSupported target_arch <;> by_cases h2 : target_endian = "little" <;>
    simp [compileErrors, h1, h2]

theorem unsupported_target_fails_witness :
    compileErrors "riscv64" "little" ≠ [] :=
  (unsupported_target_fails "riscv64" "little").mpr (Or.inl (by decide))

/-- C10: `as_bytes` is injective on well-formed `Guid`s: equal 16-byte
views imply equal fields; no field information is lost and no padding
byte exists in the view. -/
theorem as_bytes_injective (g1 g2 : Guid) (h1 : Guid.wf g1) (h2 : Guid.wf g2)
    (h : g1.as_bytes = g2.as_bytes) : g1 = g2 := by
  have e1 := from_bytes_as_bytes g1 h1
  have e2 := from_bytes_as_bytes g2 h2
  rw [← e1, ← e2, h]

theorem as_bytes_injective_witness :
    Guid.mk 1 2 3 4 5 [6, 7, 8, 9, 10, 11] = Guid.mk 1 2 3 4 5 [6, 7, 8, 9, 10, 11] :=
  as_bytes_injective _ _ (by decide) (by decide) rfl
